import Mathlib

/-!
# Verification of the Tapes proxy fetch wrapper (`tapes-fetch` with retry/failover)

Shallow embedding of `createTapesFetch` / `tapesFetch` from the repository's
retry-and-failover fetch wrapper.  Network effects are modelled by an oracle
giving the outcome of each proxied attempt (`oracle : Nat → FetchOutcome`,
indexed by the 0-based attempt number) and one outcome for the optional
direct (failover) request.  The run of an invocation is recorded as a trace
of events (proxied requests and backoff sleeps), the list of direct
requests, the terminal outcome, and the debug log lines.
-/

namespace Tapes

/-- A received HTTP response; only the status is consulted by the wrapper. -/
structure Response where
  status : Nat
deriving DecidableEq

/-- A thrown JS error: its `message` and the optional `error.cause.code`
(modelled as `""` when absent, mirroring `error.cause?.code || ''`). -/
structure JsError where
  message : String
  causeCode : String
deriving DecidableEq

/-- The outcome of one `fetch` call: a response, or a thrown error. -/
inductive FetchOutcome
  | ok (response : Response)
  | err (error : JsError)
deriving DecidableEq

/-- `const RETRYABLE_NETWORK_ERRORS = ['ECONNREFUSED', 'ECONNRESET',
'ETIMEDOUT', 'fetch failed', 'UND_ERR_CONNECT_TIMEOUT'];` -/
def RETRYABLE_NETWORK_ERRORS : List String :=
  ["ECONNREFUSED", "ECONNRESET", "ETIMEDOUT", "fetch failed",
   "UND_ERR_CONNECT_TIMEOUT"]

/-- `const RETRYABLE_STATUS_CODES = [502, 503, 504];` -/
def RETRYABLE_STATUS_CODES : List Nat := [502, 503, 504]

/-- Whether `pat` occurs at the head of `cs`. -/
def startsWithChars : List Char → List Char → Bool
  | _, [] => true
  | [], _ :: _ => false
  | a :: as, b :: bs => a == b && startsWithChars as bs

/-- Whether `pat` occurs contiguously anywhere in `cs`. -/
def hasSubChars (pat : List Char) : List Char → Bool
  | [] => pat.isEmpty
  | c :: rest => startsWithChars (c :: rest) pat || hasSubChars pat rest

/-- JS `String.prototype.includes`: substring test. -/
def strIncludes (s sub : String) : Bool := hasSubChars sub.data s.data

/-- `isRetryable(error, response)` from the source: an error is retryable when
its message or cause code contains one of the known transient signatures; a
response is retryable when its status is 502, 503 or 504. -/
def isRetryable (error : Option JsError) (response : Option Response) : Bool :=
  match error with
  | some e =>
      RETRYABLE_NETWORK_ERRORS.any fun sig =>
        strIncludes e.message sig || strIncludes e.causeCode sig
  | none =>
      match response with
      | some r => RETRYABLE_STATUS_CODES.contains r.status
      | none => false

/-! ## Headers

JS `Headers` normalizes header names to lowercase; `set` overwrites any
existing entry with that name.  We model a `Headers` object as an
association list with lowercased names in insertion order. -/

abbrev HeaderList := List (String × String)

/-- Remove every entry with (already lowercased) name `n`. -/
def hdelete (h : HeaderList) (n : String) : HeaderList :=
  h.filter fun p => p.1 != n

/-- `Headers.set` on a list whose names are already lowercased: replace the
first entry with that name in place (dropping later duplicates), or append. -/
def hsetGo : HeaderList → String → String → HeaderList
  | [], n, v => [(n, v)]
  | (k, w) :: rest, n, v =>
      if k == n then (n, v) :: hdelete rest n
      else (k, w) :: hsetGo rest n v

/-- ASCII lowercasing of a header name, as JS `Headers` normalization
does (character-wise `toLower`). -/
def lowerName (s : String) : String := ⟨s.data.map Char.toLower⟩

/-- `headers.set(name, value)`: the name is lowercased on storage. -/
def hset (h : HeaderList) (name value : String) : HeaderList :=
  hsetGo h (lowerName name) value

/-- `new Headers(init)` for an init coming from a record of unique keys:
each entry is entered with a lowercased name. -/
def mkHeaders (init : HeaderList) : HeaderList :=
  init.foldl (fun acc p => hset acc p.1 p.2) []

/-- Whether a header with the given (lowercase) name is present. -/
def hhas (h : HeaderList) (n : String) : Bool :=
  h.any fun p => p.1 == n

/-! ## URLs

The wrapper computes
`new URL(originalUrl.pathname + originalUrl.search, normalizedProxyUrl)`.
Since `pathname` always begins with `/`, this is WHATWG resolution of an
absolute-path relative reference against the proxy base: the result takes
scheme, userinfo, host and port from the base, path and query from the
reference, and has no fragment.  The trailing-slash normalization
`proxyUrl.replace(/\/$/, '')` only changes the base's path, which this
resolution discards.  We model URLs at the component level. -/

structure Url where
  scheme : String
  userinfo : String
  hostname : String
  /-- Port as printed in the URL, `""` when the default port is used. -/
  port : String
  /-- Always begins with `/` for an HTTP(S) URL. -/
  pathname : String
  /-- Query string including the leading `?`, or `""`. -/
  search : String
  /-- Fragment including the leading `#`, or `""`. -/
  hash : String
deriving DecidableEq

/-- JS `url.host`: `hostname` plus `:port` when a port is present. -/
def Url.host (u : Url) : String :=
  if u.port = "" then u.hostname else u.hostname ++ ":" ++ u.port

/-- `new URL(originalUrl.pathname + originalUrl.search, normalizedProxyUrl)`:
WHATWG resolution of the absolute-path reference against the proxy base. -/
def mkProxiedUrl (proxyBase original : Url) : Url :=
  { scheme := proxyBase.scheme
    userinfo := proxyBase.userinfo
    hostname := proxyBase.hostname
    port := proxyBase.port
    pathname := original.pathname
    search := original.search
    hash := "" }

/-! ## Configuration

`createTapesFetch` applies nullish-coalescing defaults (`?? 3`, `?? 500`,
`?? 5000`, `?? false`); note `0 ?? 3` is `0`, so a caller-supplied
`maxAttempts` of `0` (or a negative value) survives — hence `Int`. -/

structure RetryOptions where
  maxAttempts : Option Int
  initialDelayMs : Option Nat
  maxDelayMs : Option Nat

structure TapesOptions where
  proxyUrl : Url
  headers : Option HeaderList
  debug : Option Bool
  retry : Option RetryOptions
  failover : Option Bool

structure RetryConfig where
  maxAttempts : Int
  initialDelayMs : Nat
  maxDelayMs : Nat
deriving DecidableEq

/-- The `retryConfig` object built in `createTapesFetch`. -/
def resolveRetry (c : TapesOptions) : RetryConfig :=
  { maxAttempts := ((c.retry.map RetryOptions.maxAttempts).join).getD 3
    initialDelayMs := ((c.retry.map RetryOptions.initialDelayMs).join).getD 500
    maxDelayMs := ((c.retry.map RetryOptions.maxDelayMs).join).getD 5000 }

/-- `extraHeaders = {}` default. -/
def resolveExtraHeaders (c : TapesOptions) : HeaderList := c.headers.getD []

/-- `debug = false` default. -/
def resolveDebug (c : TapesOptions) : Bool := c.debug.getD false

/-- `failover = config.failover ?? false`. -/
def resolveFailover (c : TapesOptions) : Bool := c.failover.getD false

/-! ## The run of one invocation -/

/-- One issued HTTP request: its URL and the headers sent with it. -/
structure Request where
  url : Url
  headers : HeaderList
deriving DecidableEq

/-- Trace events of the proxied retry loop: the request of attempt `i`,
and a backoff sleep taken after attempt `i`. -/
inductive Event
  | req (attempt : Nat) (r : Request)
  | sleepMs (attempt : Nat) (ms : Nat)
deriving DecidableEq

/-- Terminal outcome of `tapesFetch`: a returned response, a returned
`null` (the `return lastResponse` path with `lastResponse === null`),
or a thrown error. -/
inductive Outcome
  | returnedResponse (r : Response)
  | returnedNull
  | threw (e : JsError)
deriving DecidableEq

structure RunResult where
  /-- Proxied-attempt events, in order. -/
  events : List Event
  /-- Direct (failover) requests, in order. -/
  directRequests : List Request
  outcome : Outcome
  /-- Debug log lines (empty when `debug` is false). -/
  logs : List String
deriving DecidableEq

/-- `delay = Math.min(retryConfig.initialDelayMs * 2 ** attempt,
retryConfig.maxDelayMs)`. -/
def delayFor (rc : RetryConfig) (attempt : Nat) : Nat :=
  min (rc.initialDelayMs * 2 ^ attempt) rc.maxDelayMs

/-- Exit state of the `for` loop: an early `return response`, or falling
off the end carrying `lastError` and `lastResponse`. -/
inductive LoopExit
  | returned (r : Response)
  | exhausted (lastError : Option JsError) (lastResponse : Option Response)
deriving DecidableEq

/-- The `for (let attempt = 0; attempt < retryConfig.maxAttempts; attempt++)`
loop, by recursion on the number of remaining iterations.  Faithful points:
a retryable response on a non-final attempt records `lastResponse`, sleeps
and continues; a retryable error on a non-final attempt sleeps and
continues; any other response is returned at once; any other error records
`lastError` and — since the `catch` block ends without a `break` — the loop
simply proceeds to the next iteration with no sleep. -/
def retryLoop (rc : RetryConfig) (oracle : Nat → FetchOutcome) (preq : Request)
    (debug : Bool) :
    Nat → Nat → Option JsError → Option Response →
    LoopExit × List Event × List String
  | 0, _, lastError, lastResponse => (.exhausted lastError lastResponse, [], [])
  | remaining + 1, attempt, lastError, lastResponse =>
    match oracle attempt with
    | .ok response =>
        if isRetryable none (some response)
            && decide ((attempt : Int) < rc.maxAttempts - 1) then
          let d := delayFor rc attempt
          let line := if debug then ["[tapes] Proxy returned retryable status, retrying"] else []
          let rest := retryLoop rc oracle preq debug remaining (attempt + 1)
            lastError (some response)
          (rest.1, .req attempt preq :: .sleepMs attempt d :: rest.2.1,
            line ++ rest.2.2)
        else
          (.returned response, [.req attempt preq],
            if debug then ["[tapes] Response"] else [])
    | .err e =>
        if isRetryable (some e) none
            && decide ((attempt : Int) < rc.maxAttempts - 1) then
          let d := delayFor rc attempt
          let line := if debug then ["[tapes] Proxy request failed, retrying"] else []
          let rest := retryLoop rc oracle preq debug remaining (attempt + 1)
            (some e) lastResponse
          (rest.1, .req attempt preq :: .sleepMs attempt d :: rest.2.1,
            line ++ rest.2.2)
        else
          let rest := retryLoop rc oracle preq debug remaining (attempt + 1)
            (some e) lastResponse
          (rest.1, .req attempt preq :: rest.2.1, rest.2.2)

/-- The headers sent on proxied attempts: `new Headers(init?.headers)`,
then each config extra header via `set`, then the injected
`X-Tapes-Original-Host: originalUrl.host`. -/
def mergedHeaders (options : TapesOptions) (input : Url)
    (initHeaders : HeaderList) : HeaderList :=
  hset ((resolveExtraHeaders options).foldl (fun acc p => hset acc p.1 p.2)
    (mkHeaders initHeaders)) "X-Tapes-Original-Host" input.host

/-- The request issued on every proxied attempt. -/
def proxiedRequest (options : TapesOptions) (input : Url)
    (initHeaders : HeaderList) : Request :=
  { url := mkProxiedUrl options.proxyUrl input
    headers := mergedHeaders options input initHeaders }

/-- The full run of the retry loop of one invocation: fuel is
`retryConfig.maxAttempts` (clamped at zero), starting at attempt 0 with
`lastError = null`, `lastResponse = null`. -/
def loopRun (options : TapesOptions) (input : Url) (initHeaders : HeaderList)
    (oracle : Nat → FetchOutcome) :
    LoopExit × List Event × List String :=
  retryLoop (resolveRetry options) oracle
    (proxiedRequest options input initHeaders) (resolveDebug options)
    (resolveRetry options).maxAttempts.toNat 0 none none

/-- What `tapesFetch` does once the `for` loop has finished: on an early
`return response`, that response is the outcome; otherwise, if `failover`
is set, issue exactly one direct request to the original URL with a fresh
`new Headers(init?.headers)` (no extra headers, no original-host header)
and return its response or rethrow its error; otherwise
`if (lastError) throw lastError; return lastResponse;`. -/
def epilogue (debug failover : Bool) (input : Url) (initHeaders : HeaderList)
    (directOutcome : FetchOutcome) :
    LoopExit × List Event × List String → RunResult
  | (.returned r, evs, loopLogs) =>
      { events := evs, directRequests := [], outcome := .returnedResponse r
        logs := (if debug then ["[tapes] Proxying"] else []) ++ loopLogs }
  | (.exhausted lastError lastResponse, evs, loopLogs) =>
      let logs0 := (if debug then ["[tapes] Proxying"] else []) ++ loopLogs
      if failover then
        let dreq : Request := { url := input, headers := mkHeaders initHeaders }
        let flog := if debug then ["[tapes] All proxy retries failed, failing over"] else []
        match directOutcome with
        | .ok r =>
            { events := evs, directRequests := [dreq]
              outcome := .returnedResponse r
              logs := logs0 ++ flog
                ++ if debug then ["[tapes] Failover response"] else [] }
        | .err e =>
            { events := evs, directRequests := [dreq]
              outcome := .threw e
              logs := logs0 ++ flog
                ++ if debug then ["[tapes] Failover also failed"] else [] }
      else
        match lastError with
        | some e =>
            { events := evs, directRequests := [], outcome := .threw e
              logs := logs0 }
        | none =>
            match lastResponse with
            | some r =>
                { events := evs, directRequests := []
                  outcome := .returnedResponse r, logs := logs0 }
            | none =>
                { events := evs, directRequests := []
                  outcome := .returnedNull, logs := logs0 }

/-- The body of `tapesFetch(input, init)`: compute the proxied URL, merge
headers (caller headers, then config extras via `set`, then the injected
`X-Tapes-Original-Host`), run the retry loop, then the failover /
last-error / last-response epilogue. -/
def tapesFetch (options : TapesOptions) (input : Url) (initHeaders : HeaderList)
    (oracle : Nat → FetchOutcome) (directOutcome : FetchOutcome) : RunResult :=
  epilogue (resolveDebug options) (resolveFailover options) input initHeaders
    directOutcome (loopRun options input initHeaders oracle)

/-- Number of proxied requests in an event list. -/
def reqCount (evs : List Event) : Nat :=
  (evs.filter fun e => match e with | .req _ _ => true | _ => false).length

/-- The backoff delays in an event list, in order. -/
def sleepList (evs : List Event) : List Nat :=
  evs.filterMap fun e => match e with | .sleepMs _ d => some d | _ => none

/-- Number of proxied requests issued in a run. -/
def RunResult.proxiedCount (r : RunResult) : Nat := reqCount r.events

/-- The backoff delays incurred in a run, in order. -/
def RunResult.sleeps (r : RunResult) : List Nat := sleepList r.events

/-- A returned direct outcome: the failover response is returned as-is,
a failover error is rethrown. -/
def directOutcomeAs : FetchOutcome → Outcome
  | .ok r => .returnedResponse r
  | .err e => .threw e

/-- `if (lastError) throw lastError; return lastResponse;` as an outcome. -/
def lastOutcome (le : Option JsError) (lr : Option Response) : Outcome :=
  match le with
  | some e => .threw e
  | none =>
      match lr with
      | some r => .returnedResponse r
      | none => .returnedNull

/-- Attempt `j`'s outcome does not make the loop return: either a thrown
error (retryable or not — the `catch` block never returns), or a response
with a retryable status. -/
def nonReturning (oracle : Nat → FetchOutcome) (j : Nat) : Prop :=
  (∃ e, oracle j = FetchOutcome.err e) ∨
    (∃ r, oracle j = FetchOutcome.ok r ∧ isRetryable none (some r) = true)

/-! ## Concrete sample values, used to instantiate the theorems -/

/-- A typical original request URL. -/
def sampleOrigin : Url :=
  { scheme := "https", userinfo := "", hostname := "api.example.com"
    port := "", pathname := "/v1/chat", search := "?q=1", hash := "" }

/-- A typical proxy target, `http://localhost:8080`. -/
def sampleProxy : Url :=
  { scheme := "http", userinfo := "", hostname := "localhost"
    port := "8080", pathname := "/", search := "", hash := "" }

/-- A configuration with one extra header and an explicit retry policy
`maxAttempts=3, initialDelayMs=500, maxDelayMs=5000`. -/
def sampleOptions (failover : Bool) : TapesOptions :=
  { proxyUrl := sampleProxy
    headers := some [("X-Tapes-Session", "abc")]
    debug := none
    retry := some { maxAttempts := some 3, initialDelayMs := some 500
                    maxDelayMs := some 5000 }
    failover := some failover }

/-- A transient network error as produced by a refused connection. -/
def connRefused : JsError := { message := "fetch failed", causeCode := "ECONNREFUSED" }

/-- A non-retryable error: no transient signature in message or code. -/
def boomError : JsError := { message := "boom", causeCode := "" }

/-! ## Characterization lemmas -/

@[simp] theorem reqCount_nil : reqCount [] = 0 := rfl

@[simp] theorem reqCount_req (a : Nat) (r : Request) (evs : List Event) :
    reqCount (.req a r :: evs) = reqCount evs + 1 := by
  simp [reqCount]

@[simp] theorem reqCount_sleep (a d : Nat) (evs : List Event) :
    reqCount (.sleepMs a d :: evs) = reqCount evs := by
  simp [reqCount]

@[simp] theorem sleepList_nil : sleepList [] = [] := rfl

@[simp] theorem sleepList_req (a : Nat) (r : Request) (evs : List Event) :
    sleepList (.req a r :: evs) = sleepList evs := by
  simp [sleepList]

@[simp] theorem sleepList_sleep (a d : Nat) (evs : List Event) :
    sleepList (.sleepMs a d :: evs) = d :: sleepList evs := by
  simp [sleepList]

/-- The loop issues at most `fuel` proxied requests. -/
theorem retryLoop_reqCount_le (rc : RetryConfig) (oracle : Nat → FetchOutcome)
    (p : Request) (dbg : Bool) :
    ∀ (k a : Nat) (le : Option JsError) (lr : Option Response),
      reqCount (retryLoop rc oracle p dbg k a le lr).2.1 ≤ k := by
  intro k
  induction k with
  | zero => intro a le lr; simp [retryLoop]
  | succ n ih =>
      intro a le lr
      cases hOr : oracle a with
      | ok r =>
          simp only [retryLoop, hOr]
          split
          · simpa using ih (a + 1) le (some r)
          · simp
      | err e =>
          simp only [retryLoop, hOr]
          split
          · simpa using ih (a + 1) (some e) lr
          · simpa using ih (a + 1) (some e) lr

/-- Every backoff sleep recorded by the loop for attempt `i` has exactly the
value `min(initialDelayMs * 2 ** i, maxDelayMs)`, and sleeps happen only
before the last allowed attempt. -/
theorem retryLoop_sleep_mem (rc : RetryConfig) (oracle : Nat → FetchOutcome)
    (p : Request) (dbg : Bool) :
    ∀ (k a : Nat) (le : Option JsError) (lr : Option Response) (i d : Nat),
      Event.sleepMs i d ∈ (retryLoop rc oracle p dbg k a le lr).2.1 →
      d = delayFor rc i ∧ (i : Int) < rc.maxAttempts - 1 := by
  intro k
  induction k with
  | zero => intro a le lr i d hmem; simp [retryLoop] at hmem
  | succ n ihk =>
      intro a le lr i d hmem
      cases hOr : oracle a with
      | ok r =>
          simp only [retryLoop, hOr] at hmem
          split at hmem
          · next hC =>
              rw [Bool.and_eq_true, decide_eq_true_eq] at hC
              simp only [List.mem_cons] at hmem
              rcases hmem with h1 | h2 | h3
              · cases h1
              · cases h2; exact ⟨rfl, hC.2⟩
              · exact ihk (a + 1) le (some r) i d h3
          · simp at hmem
      | err e =>
          simp only [retryLoop, hOr] at hmem
          split at hmem
          · next hC =>
              rw [Bool.and_eq_true, decide_eq_true_eq] at hC
              simp only [List.mem_cons] at hmem
              rcases hmem with h1 | h2 | h3
              · cases h1
              · cases h2; exact ⟨rfl, hC.2⟩
              · exact ihk (a + 1) (some e) lr i d h3
          · simp only [List.mem_cons] at hmem
            rcases hmem with h1 | h3
            · cases h1
            · exact ihk (a + 1) (some e) lr i d h3

/-- Every proxied request recorded by the loop is the fixed proxied
request (same URL, same headers) — the loop re-issues the identical
request on every attempt. -/
theorem retryLoop_req_mem (rc : RetryConfig) (oracle : Nat → FetchOutcome)
    (p : Request) (dbg : Bool) :
    ∀ (k a : Nat) (le : Option JsError) (lr : Option Response) (i : Nat)
      (r : Request),
      Event.req i r ∈ (retryLoop rc oracle p dbg k a le lr).2.1 → r = p := by
  intro k
  induction k with
  | zero => intro a le lr i r hmem; simp [retryLoop] at hmem
  | succ n ihk =>
      intro a le lr i r hmem
      cases hOr : oracle a with
      | ok resp =>
          simp only [retryLoop, hOr] at hmem
          split at hmem
          · simp only [List.mem_cons] at hmem
            rcases hmem with h1 | h2 | h3
            · cases h1; rfl
            · cases h2
            · exact ihk (a + 1) le (some resp) i r h3
          · simp only [List.mem_cons, List.not_mem_nil, or_false] at hmem
            cases hmem; rfl
      | err e =>
          simp only [retryLoop, hOr] at hmem
          split at hmem
          · simp only [List.mem_cons] at hmem
            rcases hmem with h1 | h2 | h3
            · cases h1; rfl
            · cases h2
            · exact ihk (a + 1) (some e) lr i r h3
          · simp only [List.mem_cons] at hmem
            rcases hmem with h1 | h3
            · cases h1; rfl
            · exact ihk (a + 1) (some e) lr i r h3

/-- The debug flag affects only the log lines: exit state and events of the
loop are identical for any two debug settings. -/
theorem retryLoop_debug_irrelevant (rc : RetryConfig)
    (oracle : Nat → FetchOutcome) (p : Request) (d1 d2 : Bool) :
    ∀ (k a : Nat) (le : Option JsError) (lr : Option Response),
      (retryLoop rc oracle p d1 k a le lr).1
          = (retryLoop rc oracle p d2 k a le lr).1 ∧
        (retryLoop rc oracle p d1 k a le lr).2.1
          = (retryLoop rc oracle p d2 k a le lr).2.1 := by
  intro k
  induction k with
  | zero => intro a le lr; simp [retryLoop]
  | succ n ihk =>
      intro a le lr
      cases hOr : oracle a with
      | ok r =>
          simp only [retryLoop, hOr]
          split
          · exact ⟨(ihk (a + 1) le (some r)).1,
              by rw [(ihk (a + 1) le (some r)).2]⟩
          · exact ⟨rfl, rfl⟩
      | err e =>
          simp only [retryLoop, hOr]
          split
          · exact ⟨(ihk (a + 1) (some e) lr).1,
              by rw [(ihk (a + 1) (some e) lr).2]⟩
          · exact ⟨(ihk (a + 1) (some e) lr).1,
              by rw [(ihk (a + 1) (some e) lr).2]⟩

/-- If every attempt in range throws (any error, retryable or not), the
loop never returns early: it exhausts, keeping the incoming
`lastResponse`. -/
theorem retryLoop_all_err (rc : RetryConfig) (oracle : Nat → FetchOutcome)
    (p : Request) (dbg : Bool) :
    ∀ (k a : Nat) (le : Option JsError) (lr : Option Response),
      (∀ j, j < a + k → ∃ e, oracle j = FetchOutcome.err e) →
      ∃ le2, (retryLoop rc oracle p dbg k a le lr).1 = .exhausted le2 lr := by
  intro k
  induction k with
  | zero => intro a le lr _; exact ⟨le, rfl⟩
  | succ n ihk =>
      intro a le lr hAll
      obtain ⟨e, hOr⟩ := hAll a (by omega)
      simp only [retryLoop, hOr]
      split
      · exact ihk (a + 1) (some e) lr fun j hj => hAll j (by omega)
      · exact ihk (a + 1) (some e) lr fun j hj => hAll j (by omega)

/-- If every attempt in range throws a NON-retryable error, the loop makes
all `fuel` requests back to back: no early exit, and no backoff sleep at
all (the `catch` block falls through without a `break` and without a
`sleep`). -/
theorem retryLoop_all_nonretry_err (rc : RetryConfig)
    (oracle : Nat → FetchOutcome) (p : Request) (dbg : Bool) :
    ∀ (k a : Nat) (le : Option JsError) (lr : Option Response),
      (∀ j, a ≤ j → j < a + k →
        ∃ e, oracle j = FetchOutcome.err e ∧ isRetryable (some e) none = false) →
      reqCount (retryLoop rc oracle p dbg k a le lr).2.1 = k ∧
        sleepList (retryLoop rc oracle p dbg k a le lr).2.1 = [] ∧
        ∃ le2, (retryLoop rc oracle p dbg k a le lr).1 = .exhausted le2 lr := by
  intro k
  induction k with
  | zero => intro a le lr _; exact ⟨rfl, rfl, le, rfl⟩
  | succ n ihk =>
      intro a le lr hAll
      obtain ⟨e, hOr, hNR⟩ := hAll a (by omega) (by omega)
      simp only [retryLoop, hOr]
      split
      · next hC =>
          rw [Bool.and_eq_true] at hC
          rw [hNR] at hC
          cases hC.1
      · obtain ⟨hCount, hSleep, le2, hExit⟩ :=
          ihk (a + 1) (some e) lr fun j hj1 hj2 => hAll j (by omega) (by omega)
        exact ⟨by simpa using hCount, by simpa using hSleep, le2, hExit⟩

/-- If every attempt in range returns a retryable-status response, the loop
runs to the last allowed attempt and returns that attempt's response. -/
theorem retryLoop_all_retry_ok (rc : RetryConfig)
    (oracle : Nat → FetchOutcome) (p : Request) (dbg : Bool) :
    ∀ (k a : Nat) (le : Option JsError) (lr : Option Response),
      1 ≤ k → (a : Int) + k = rc.maxAttempts →
      (∀ j, a ≤ j → j < a + k →
        ∃ r, oracle j = FetchOutcome.ok r ∧ isRetryable none (some r) = true) →
      ∃ r, oracle (a + k - 1) = FetchOutcome.ok r ∧
        (retryLoop rc oracle p dbg k a le lr).1 = .returned r := by
  intro k
  induction k with
  | zero => intro a le lr h1; omega
  | succ n ihk =>
      intro a le lr _ hM hAll
      obtain ⟨r, hOr, hRet⟩ := hAll a (by omega) (by omega)
      cases n with
      | zero =>
          refine ⟨r, by simpa using hOr, ?_⟩
          simp only [retryLoop, hOr]
          split
          · next hC =>
              rw [Bool.and_eq_true, decide_eq_true_eq] at hC
              omega
          · rfl
      | succ m =>
          obtain ⟨r2, hOr2, hExit⟩ :=
            ihk (a + 1) le (some r) (by omega) (by push_cast; push_cast at hM; omega)
              fun j hj1 hj2 => hAll j (by omega) (by omega)
          refine ⟨r2, ?_, ?_⟩
          · have : a + 1 + (m + 1) - 1 = a + (m + 1 + 1) - 1 := by omega
            rwa [this] at hOr2
          · simp only [retryLoop, hOr]
            split
            · exact hExit
            · next hC =>
                rw [Bool.and_eq_true, decide_eq_true_eq] at hC
                rw [hRet] at hC
                push_cast at hM
                simp only [true_and, not_lt] at hC
                omega

/-- If attempts before `a + m` are non-returning and attempt `a + m` yields
a NON-retryable response, the loop returns that response at once: exactly
`m + 1` requests are issued in total. -/
theorem retryLoop_stop_on_nonretry_ok (rc : RetryConfig)
    (oracle : Nat → FetchOutcome) (p : Request) (dbg : Bool) :
    ∀ (m k a : Nat) (le : Option JsError) (lr : Option Response)
      (r : Response),
      m < k → (a : Int) + k = rc.maxAttempts →
      (∀ j, a ≤ j → j < a + m → nonReturning oracle j) →
      oracle (a + m) = FetchOutcome.ok r →
      isRetryable none (some r) = false →
      (retryLoop rc oracle p dbg k a le lr).1 = .returned r ∧
        reqCount (retryLoop rc oracle p dbg k a le lr).2.1 = m + 1 := by
  intro m
  induction m with
  | zero =>
      intro k a le lr r hmk hM _ hOr hNR
      cases k with
      | zero => omega
      | succ n =>
          rw [Nat.add_zero] at hOr
          simp only [retryLoop, hOr]
          split
          · next hC =>
              rw [Bool.and_eq_true] at hC
              rw [hNR] at hC
              cases hC.1
          · exact ⟨rfl, by simp⟩
  | succ m ihm =>
      intro k a le lr r hmk hM hPrev hOr hNR
      cases k with
      | zero => omega
      | succ n =>
          have hstep : nonReturning oracle a := hPrev a (by omega) (by omega)
          have hPrev2 : ∀ j, a + 1 ≤ j → j < (a + 1) + m → nonReturning oracle j :=
            fun j hj1 hj2 => hPrev j (by omega) (by omega)
          have hOr2 : oracle ((a + 1) + m) = FetchOutcome.ok r := by
            have : (a + 1) + m = a + (m + 1) := by omega
            rwa [this]
          have hM2 : ((a : Int) + 1) + n = rc.maxAttempts := by
            push_cast at hM ⊢; omega
          rcases hstep with ⟨e, hE⟩ | ⟨r', hR', hRet'⟩
          · obtain ⟨hExit, hCount⟩ :=
              ihm n (a + 1) (some e) lr r (by omega) (by exact_mod_cast hM2)
                hPrev2 hOr2 hNR
            simp only [retryLoop, hE]
            split
            · exact ⟨hExit, by simpa using hCount⟩
            · exact ⟨hExit, by simpa using hCount⟩
          · obtain ⟨hExit, hCount⟩ :=
              ihm n (a + 1) le (some r') r (by omega) (by exact_mod_cast hM2)
                hPrev2 hOr2 hNR
            simp only [retryLoop, hR']
            split
            · exact ⟨hExit, by simpa using hCount⟩
            · next hC =>
                rw [Bool.and_eq_true, decide_eq_true_eq] at hC
                rw [hRet'] at hC
                simp only [true_and, not_lt] at hC
                push_cast at hM
                omega

theorem tapesFetch_events (o : TapesOptions) (u : Url) (ih : HeaderList)
    (oracle : Nat → FetchOutcome) (d : FetchOutcome) :
    (tapesFetch o u ih oracle d).events = (loopRun o u ih oracle).2.1 := by
  unfold tapesFetch
  rcases hE : loopRun o u ih oracle with ⟨exit, evs, logs⟩
  cases exit with
  | returned r => rfl
  | exhausted le lr =>
      simp only [epilogue]
      cases resolveFailover o <;> cases d <;> cases le <;> cases lr <;> simp

theorem tapesFetch_of_returned (o : TapesOptions) (u : Url) (ih : HeaderList)
    (oracle : Nat → FetchOutcome) (d : FetchOutcome) (r : Response)
    (hE : (loopRun o u ih oracle).1 = .returned r) :
    (tapesFetch o u ih oracle d).outcome = .returnedResponse r ∧
      (tapesFetch o u ih oracle d).directRequests = [] := by
  unfold tapesFetch
  rcases hL : loopRun o u ih oracle with ⟨exit, evs, logs⟩
  rw [hL] at hE
  cases exit with
  | returned r' =>
      cases hE
      exact ⟨rfl, rfl⟩
  | exhausted le lr => cases hE

theorem tapesFetch_of_exhausted_failover (o : TapesOptions) (u : Url)
    (ih : HeaderList) (oracle : Nat → FetchOutcome) (d : FetchOutcome)
    (le : Option JsError) (lr : Option Response)
    (hf : resolveFailover o = true)
    (hE : (loopRun o u ih oracle).1 = .exhausted le lr) :
    (tapesFetch o u ih oracle d).directRequests
        = [{ url := u, headers := mkHeaders ih }] ∧
      (tapesFetch o u ih oracle d).outcome = directOutcomeAs d := by
  unfold tapesFetch
  rcases hL : loopRun o u ih oracle with ⟨exit, evs, logs⟩
  rw [hL] at hE
  cases exit with
  | returned r' => cases hE
  | exhausted le' lr' =>
      cases hE
      simp only [epilogue, hf]
      cases d <;> simp [directOutcomeAs]

theorem tapesFetch_of_exhausted_nofailover (o : TapesOptions) (u : Url)
    (ih : HeaderList) (oracle : Nat → FetchOutcome) (d : FetchOutcome)
    (le : Option JsError) (lr : Option Response)
    (hf : resolveFailover o = false)
    (hE : (loopRun o u ih oracle).1 = .exhausted le lr) :
    (tapesFetch o u ih oracle d).directRequests = [] ∧
      (tapesFetch o u ih oracle d).outcome = lastOutcome le lr := by
  unfold tapesFetch
  rcases hL : loopRun o u ih oracle with ⟨exit, evs, logs⟩
  rw [hL] at hE
  cases exit with
  | returned r' => cases hE
  | exhausted le' lr' =>
      cases hE
      simp only [epilogue, hf]
      cases le <;> cases lr <;> simp [lastOutcome]

/-- A non-retryable response on any attempt with fuel remaining makes the
loop return it at once, with the one request as the whole event list. -/
theorem retryLoop_first_stop (rc : RetryConfig) (oracle : Nat → FetchOutcome)
    (p : Request) (dbg : Bool) (n a : Nat) (le : Option JsError)
    (lr : Option Response) (r : Response)
    (hOr : oracle a = FetchOutcome.ok r)
    (hNR : isRetryable none (some r) = false) :
    retryLoop rc oracle p dbg (n + 1) a le lr
      = (.returned r, [.req a p], if dbg then ["[tapes] Response"] else []) := by
  simp only [retryLoop, hOr]
  split
  · next hC =>
      rw [Bool.and_eq_true] at hC
      rw [hNR] at hC
      cases hC.1
  · rfl

/-- A 503 response is retryable. -/
theorem isRetryable_status503 (r : Response) (h : r.status = 503) :
    isRetryable none (some r) = true := by
  cases r with
  | mk s => cases h; decide

/-- The epilogue's events, direct requests and outcome do not depend on the
debug flag, and agree for loop results that agree on exit state and
events. -/
theorem epilogue_fields (db1 db2 fo : Bool) (u : Url) (ihdrs : HeaderList)
    (dout : FetchOutcome) (x1 x2 : LoopExit × List Event × List String)
    (h1 : x1.1 = x2.1) (h2 : x1.2.1 = x2.2.1) :
    (epilogue db1 fo u ihdrs dout x1).events
        = (epilogue db2 fo u ihdrs dout x2).events ∧
      (epilogue db1 fo u ihdrs dout x1).directRequests
        = (epilogue db2 fo u ihdrs dout x2).directRequests ∧
      (epilogue db1 fo u ihdrs dout x1).outcome
        = (epilogue db2 fo u ihdrs dout x2).outcome := by
  rcases x1 with ⟨e1, v1, l1⟩
  rcases x2 with ⟨e2, v2, l2⟩
  simp only at h1 h2
  subst h1
  subst h2
  cases e1 with
  | returned r => simp [epilogue]
  | exhausted le lr =>
      simp only [epilogue]
      cases fo <;> cases dout <;> cases le <;> cases lr <;> simp

/-! ## Claims -/

/-- Claim C3: for every configuration with `retryPolicy.maxAttempts ≥ 1`
and every invocation, the number of requests issued to the proxied URL is
at most `retryPolicy.maxAttempts`. -/
theorem claim_C3_attempt_bound (o : TapesOptions) (u : Url)
    (ihdrs : HeaderList) (oracle : Nat → FetchOutcome) (d : FetchOutcome)
    (hM : 1 ≤ (resolveRetry o).maxAttempts) :
    ((tapesFetch o u ihdrs oracle d).proxiedCount : Int)
      ≤ (resolveRetry o).maxAttempts := by
  have hcount := retryLoop_reqCount_le (resolveRetry o) oracle
    (proxiedRequest o u ihdrs) (resolveDebug o)
    (resolveRetry o).maxAttempts.toNat 0 none none
  rw [RunResult.proxiedCount, tapesFetch_events]
  unfold loopRun
  omega

/-- Witness for C3 at the sample configuration (`maxAttempts = 3`) with an
always-503 proxy. -/
theorem claim_C3_witness :
    1 ≤ (resolveRetry (sampleOptions false)).maxAttempts ∧
      ((tapesFetch (sampleOptions false) sampleOrigin []
          (fun _ => FetchOutcome.ok ⟨503⟩)
          (FetchOutcome.ok ⟨200⟩)).proxiedCount : Int)
        ≤ (resolveRetry (sampleOptions false)).maxAttempts :=
  ⟨by decide,
    claim_C3_attempt_bound (sampleOptions false) sampleOrigin []
      (fun _ => FetchOutcome.ok ⟨503⟩) (FetchOutcome.ok ⟨200⟩) (by decide)⟩

/-- Claim C5: a first-attempt response whose status is not retryable
(anything outside 502/503/504, e.g. 4xx or 500) is returned immediately:
one proxied request, no sleeps, no direct request, whatever the failover
flag. -/
theorem claim_C5_nonretryable_response_immediate (o : TapesOptions) (u : Url)
    (ihdrs : HeaderList) (oracle : Nat → FetchOutcome) (d : FetchOutcome)
    (r : Response)
    (hM : 1 ≤ (resolveRetry o).maxAttempts)
    (h0 : oracle 0 = FetchOutcome.ok r)
    (hNR : isRetryable none (some r) = false) :
    (tapesFetch o u ihdrs oracle d).proxiedCount = 1 ∧
      (tapesFetch o u ihdrs oracle d).sleeps = [] ∧
      (tapesFetch o u ihdrs oracle d).directRequests = [] ∧
      (tapesFetch o u ihdrs oracle d).outcome = .returnedResponse r := by
  obtain ⟨n, hn⟩ : ∃ n, (resolveRetry o).maxAttempts.toNat = n + 1 :=
    ⟨(resolveRetry o).maxAttempts.toNat - 1, by omega⟩
  have hloop : loopRun o u ihdrs oracle
      = (.returned r, [.req 0 (proxiedRequest o u ihdrs)],
          if resolveDebug o then ["[tapes] Response"] else []) := by
    unfold loopRun
    rw [hn]
    exact retryLoop_first_stop _ oracle _ _ n 0 none none r h0 hNR
  have hret := tapesFetch_of_returned o u ihdrs oracle d r (by rw [hloop])
  refine ⟨?_, ?_, hret.2, hret.1⟩
  · rw [RunResult.proxiedCount, tapesFetch_events, hloop]; rfl
  · rw [RunResult.sleeps, tapesFetch_events, hloop]; rfl

/-- Witness for C5: a 404 on the first attempt, failover enabled. -/
theorem claim_C5_witness :
    (tapesFetch (sampleOptions true) sampleOrigin []
          (fun _ => FetchOutcome.ok ⟨404⟩) (FetchOutcome.ok ⟨200⟩)).proxiedCount
        = 1 ∧
      (tapesFetch (sampleOptions true) sampleOrigin []
          (fun _ => FetchOutcome.ok ⟨404⟩) (FetchOutcome.ok ⟨200⟩)).sleeps = [] ∧
      (tapesFetch (sampleOptions true) sampleOrigin []
          (fun _ => FetchOutcome.ok ⟨404⟩)
          (FetchOutcome.ok ⟨200⟩)).directRequests = [] ∧
      (tapesFetch (sampleOptions true) sampleOrigin []
          (fun _ => FetchOutcome.ok ⟨404⟩) (FetchOutcome.ok ⟨200⟩)).outcome
        = .returnedResponse ⟨404⟩ :=
  claim_C5_nonretryable_response_immediate (sampleOptions true) sampleOrigin []
    (fun _ => FetchOutcome.ok ⟨404⟩) (FetchOutcome.ok ⟨200⟩) ⟨404⟩
    (by decide) rfl (by decide)

/-- Claim C10: with `retry.maxAttempts ≤ 0` and failover disabled, an
invocation issues no request at all and resolves to `null`. -/
theorem claim_C10_zero_attempts_null (o : TapesOptions) (u : Url)
    (ihdrs : HeaderList) (oracle : Nat → FetchOutcome) (d : FetchOutcome)
    (hM : (resolveRetry o).maxAttempts ≤ 0)
    (hf : resolveFailover o = false) :
    (tapesFetch o u ihdrs oracle d).events = [] ∧
      (tapesFetch o u ihdrs oracle d).directRequests = [] ∧
      (tapesFetch o u ihdrs oracle d).outcome = .returnedNull := by
  have hn : (resolveRetry o).maxAttempts.toNat = 0 := by omega
  have hloop : loopRun o u ihdrs oracle = (.exhausted none none, [], []) := by
    unfold loopRun
    rw [hn]
    rfl
  have h2 := tapesFetch_of_exhausted_nofailover o u ihdrs oracle d none none hf
    (by rw [hloop])
  refine ⟨?_, h2.1, by rw [h2.2]; rfl⟩
  rw [tapesFetch_events, hloop]

/-- Witness for C10: `maxAttempts = 0`, failover off. -/
theorem claim_C10_witness :
    (tapesFetch
        { proxyUrl := sampleProxy, headers := none, debug := none
          retry := some { maxAttempts := some 0, initialDelayMs := none
                          maxDelayMs := none }
          failover := none }
        sampleOrigin [] (fun _ => FetchOutcome.ok ⟨503⟩)
        (FetchOutcome.ok ⟨200⟩)).events = [] ∧
      (tapesFetch
          { proxyUrl := sampleProxy, headers := none, debug := none
            retry := some { maxAttempts := some 0, initialDelayMs := none
                            maxDelayMs := none }
            failover := none }
          sampleOrigin [] (fun _ => FetchOutcome.ok ⟨503⟩)
          (FetchOutcome.ok ⟨200⟩)).directRequests = [] ∧
      (tapesFetch
          { proxyUrl := sampleProxy, headers := none, debug := none
            retry := some { maxAttempts := some 0, initialDelayMs := none
                            maxDelayMs := none }
            failover := none }
          sampleOrigin [] (fun _ => FetchOutcome.ok ⟨503⟩)
          (FetchOutcome.ok ⟨200⟩)).outcome = .returnedNull :=
  claim_C10_zero_attempts_null
    { proxyUrl := sampleProxy, headers := none, debug := none
      retry := some { maxAttempts := some 0, initialDelayMs := none
                      maxDelayMs := none }
      failover := none }
    sampleOrigin [] (fun _ => FetchOutcome.ok ⟨503⟩) (FetchOutcome.ok ⟨200⟩)
    (by decide) (by decide)

/-- Claim C4: every backoff delay incurred for a retryable outcome at
attempt `i` equals `min(initialDelay * 2^i, maxDelay)` exactly, delays are
only incurred before the last allowed attempt, and with
`maxAttempts=3, initialDelay=500, maxDelay=5000` the computed delays for
attempts 0, 1, 2 are 500, 1000, 2000 while an all-retryable run incurs
exactly the delays 500 and 1000 (none after the last attempt). -/
theorem claim_C4_backoff_exact (o : TapesOptions) (u : Url)
    (ihdrs : HeaderList) (oracle : Nat → FetchOutcome) (d : FetchOutcome)
    (i ms : Nat)
    (hmem : Event.sleepMs i ms ∈ (tapesFetch o u ihdrs oracle d).events) :
    ms = delayFor (resolveRetry o) i ∧
      (i : Int) < (resolveRetry o).maxAttempts - 1 ∧
      delayFor { maxAttempts := 3, initialDelayMs := 500, maxDelayMs := 5000 } 0
        = 500 ∧
      delayFor { maxAttempts := 3, initialDelayMs := 500, maxDelayMs := 5000 } 1
        = 1000 ∧
      delayFor { maxAttempts := 3, initialDelayMs := 500, maxDelayMs := 5000 } 2
        = 2000 ∧
      (tapesFetch (sampleOptions false) sampleOrigin []
          (fun _ => FetchOutcome.ok ⟨503⟩) (FetchOutcome.ok ⟨200⟩)).sleeps
        = [500, 1000] := by
  rw [tapesFetch_events] at hmem
  unfold loopRun at hmem
  have h := retryLoop_sleep_mem (resolveRetry o) oracle
    (proxiedRequest o u ihdrs) (resolveDebug o)
    (resolveRetry o).maxAttempts.toNat 0 none none i ms hmem
  exact ⟨h.1, h.2, by decide, by decide, by decide, rfl⟩

/-- Witness for C4: the first sleep of an all-503 run at the sample
configuration. -/
theorem claim_C4_witness :
    500 = delayFor (resolveRetry (sampleOptions false)) 0 ∧
      ((0 : Nat) : Int) < (resolveRetry (sampleOptions false)).maxAttempts - 1 := by
  have h := claim_C4_backoff_exact (sampleOptions false) sampleOrigin []
    (fun _ => FetchOutcome.ok ⟨503⟩) (FetchOutcome.ok ⟨200⟩) 0 500 (by decide)
  exact ⟨h.1, h.2.1⟩

/-- Claim C6: with failover disabled, when every one of the `maxAttempts`
attempts yields a 503 response, the response of the last attempt is
returned as a normal value (no throw). -/
theorem claim_C6_last_503_returned (o : TapesOptions) (u : Url)
    (ihdrs : HeaderList) (oracle : Nat → FetchOutcome) (d : FetchOutcome)
    (hf : resolveFailover o = false)
    (hM : 1 ≤ (resolveRetry o).maxAttempts)
    (hAll : ∀ j : Nat, (j : Int) < (resolveRetry o).maxAttempts →
      ∃ r, oracle j = FetchOutcome.ok r ∧ r.status = 503) :
    ∃ r, oracle ((resolveRetry o).maxAttempts.toNat - 1) = FetchOutcome.ok r ∧
      r.status = 503 ∧
      (tapesFetch o u ihdrs oracle d).outcome = .returnedResponse r := by
  have hAll2 : ∀ j, 0 ≤ j → j < 0 + (resolveRetry o).maxAttempts.toNat →
      ∃ r, oracle j = FetchOutcome.ok r ∧ isRetryable none (some r) = true := by
    intro j _ hj
    obtain ⟨r, hOr, hs⟩ := hAll j (by omega)
    exact ⟨r, hOr, isRetryable_status503 r hs⟩
  obtain ⟨r, hOr, hExit⟩ := retryLoop_all_retry_ok (resolveRetry o) oracle
    (proxiedRequest o u ihdrs) (resolveDebug o)
    (resolveRetry o).maxAttempts.toNat 0 none none (by omega)
    (by push_cast; omega) hAll2
  rw [show 0 + (resolveRetry o).maxAttempts.toNat - 1
      = (resolveRetry o).maxAttempts.toNat - 1 by omega] at hOr
  obtain ⟨r2, hOr2, hs2⟩ := hAll ((resolveRetry o).maxAttempts.toNat - 1)
    (by omega)
  have hre : r2 = r := FetchOutcome.ok.inj (hOr2.symm.trans hOr)
  subst hre
  have hret := tapesFetch_of_returned o u ihdrs oracle d r2
    (by unfold loopRun; exact hExit)
  exact ⟨r2, hOr, hs2, hret.1⟩

/-- Witness for C6: three 503s at the sample configuration with failover
off. -/
theorem claim_C6_witness :
    ∃ r, (FetchOutcome.ok ⟨503⟩ : FetchOutcome) = FetchOutcome.ok r ∧
      r.status = 503 ∧
      (tapesFetch (sampleOptions false) sampleOrigin []
          (fun _ => FetchOutcome.ok ⟨503⟩) (FetchOutcome.ok ⟨200⟩)).outcome
        = .returnedResponse r :=
  claim_C6_last_503_returned (sampleOptions false) sampleOrigin []
    (fun _ => FetchOutcome.ok ⟨503⟩) (FetchOutcome.ok ⟨200⟩) rfl (by decide)
    (fun j hj => ⟨⟨503⟩, rfl, rfl⟩)

/-- Claim C7: for a valid proxy target (no userinfo), every proxied request
of a run carries the URL made of the proxy target's scheme, host and port
and the original URL's path and query — nothing else of either URL. -/
theorem claim_C7_url_rewrite (o : TapesOptions) (u : Url)
    (ihdrs : HeaderList) (oracle : Nat → FetchOutcome) (d : FetchOutcome)
    (a : Nat) (rq : Request)
    (hvalid : o.proxyUrl.userinfo = "")
    (hmem : Event.req a rq ∈ (tapesFetch o u ihdrs oracle d).events) :
    rq.url = { scheme := o.proxyUrl.scheme, userinfo := ""
               hostname := o.proxyUrl.hostname, port := o.proxyUrl.port
               pathname := u.pathname, search := u.search, hash := "" } := by
  rw [tapesFetch_events] at hmem
  unfold loopRun at hmem
  have h := retryLoop_req_mem (resolveRetry o) oracle
    (proxiedRequest o u ihdrs) (resolveDebug o)
    (resolveRetry o).maxAttempts.toNat 0 none none a rq hmem
  rw [h]
  simp [proxiedRequest, mkProxiedUrl, hvalid]

/-- Witness for C7: the first request of a run against the sample proxy. -/
theorem claim_C7_witness :
    (Request.mk (mkProxiedUrl sampleProxy sampleOrigin)
          (mergedHeaders (sampleOptions false) sampleOrigin [])).url
      = { scheme := (sampleOptions false).proxyUrl.scheme, userinfo := ""
          hostname := (sampleOptions false).proxyUrl.hostname
          port := (sampleOptions false).proxyUrl.port
          pathname := sampleOrigin.pathname, search := sampleOrigin.search
          hash := "" } :=
  claim_C7_url_rewrite (sampleOptions false) sampleOrigin []
    (fun _ => FetchOutcome.ok ⟨503⟩) (FetchOutcome.ok ⟨200⟩) 0
    (Request.mk (mkProxiedUrl sampleProxy sampleOrigin)
      (mergedHeaders (sampleOptions false) sampleOrigin []))
    rfl (by decide)

/-- Claim C8: whenever the failover request is issued (failover enabled and
the retry loop exhausted), exactly one direct request goes to the original
URL, it carries exactly `new Headers(init?.headers)` — none of the config's
extra headers and no injected original-host header — and its outcome,
success or failure, is returned directly. -/
theorem claim_C8_failover_once (o : TapesOptions) (u : Url)
    (ihdrs : HeaderList) (oracle : Nat → FetchOutcome) (d : FetchOutcome)
    (le : Option JsError) (lr : Option Response)
    (hf : resolveFailover o = true)
    (hE : (loopRun o u ihdrs oracle).1 = LoopExit.exhausted le lr) :
    (tapesFetch o u ihdrs oracle d).directRequests
        = [{ url := u, headers := mkHeaders ihdrs }] ∧
      (tapesFetch o u ihdrs oracle d).outcome = directOutcomeAs d :=
  tapesFetch_of_exhausted_failover o u ihdrs oracle d le lr hf hE

/-- Witness for C8: three refused connections, then a successful direct
request. -/
theorem claim_C8_witness :
    (tapesFetch (sampleOptions true) sampleOrigin [("Authorization", "k")]
          (fun _ => FetchOutcome.err connRefused)
          (FetchOutcome.ok ⟨200⟩)).directRequests
        = [{ url := sampleOrigin, headers := mkHeaders [("Authorization", "k")] }] ∧
      (tapesFetch (sampleOptions true) sampleOrigin [("Authorization", "k")]
          (fun _ => FetchOutcome.err connRefused)
          (FetchOutcome.ok ⟨200⟩)).outcome
        = directOutcomeAs (FetchOutcome.ok ⟨200⟩) :=
  claim_C8_failover_once (sampleOptions true) sampleOrigin
    [("Authorization", "k")] (fun _ => FetchOutcome.err connRefused)
    (FetchOutcome.ok ⟨200⟩) (some connRefused) none rfl (by decide)

/-- Claim C9: the debug flag never affects control flow — the proxied
requests and sleeps, the direct requests, and the terminal outcome of an
invocation are identical with debug enabled and disabled. -/
theorem claim_C9_debug_no_effect (o : TapesOptions) (u : Url)
    (ihdrs : HeaderList) (oracle : Nat → FetchOutcome) (d : FetchOutcome) :
    (tapesFetch { o with debug := some true } u ihdrs oracle d).events
        = (tapesFetch { o with debug := some false } u ihdrs oracle d).events ∧
      (tapesFetch { o with debug := some true } u ihdrs oracle d).directRequests
        = (tapesFetch { o with debug := some false } u ihdrs oracle d).directRequests ∧
      (tapesFetch { o with debug := some true } u ihdrs oracle d).outcome
        = (tapesFetch { o with debug := some false } u ihdrs oracle d).outcome := by
  have hd := retryLoop_debug_irrelevant (resolveRetry o) oracle
    (proxiedRequest o u ihdrs) true false
    (resolveRetry o).maxAttempts.toNat 0 none none
  exact epilogue_fields true false (resolveFailover o) u ihdrs d _ _ hd.1 hd.2

/-- Counterexample to claim C1 as stated: with failover enabled and all
three attempts returning 503 — a retryable outcome — the wrapper issues NO
direct request and returns the proxied 503 response.  The final attempt's
retryable response hits `return response` (its retry guard fails on
`attempt < maxAttempts - 1`), so the failover block is never reached. -/
theorem claim_C1_counterexample :
    resolveFailover (sampleOptions true) = true ∧
      (resolveRetry (sampleOptions true)).maxAttempts = 3 ∧
      isRetryable none (some ⟨503⟩) = true ∧
      (tapesFetch (sampleOptions true) sampleOrigin []
          (fun _ => FetchOutcome.ok ⟨503⟩)
          (FetchOutcome.ok ⟨200⟩)).directRequests = [] ∧
      (tapesFetch (sampleOptions true) sampleOrigin []
          (fun _ => FetchOutcome.ok ⟨503⟩)
          (FetchOutcome.ok ⟨200⟩)).outcome = .returnedResponse ⟨503⟩ :=
  ⟨rfl, rfl, rfl, rfl, rfl⟩

/-- Claim C1 as amended: with failover enabled, if every one of the
`maxAttempts` proxied attempts yields a retryable transient network ERROR
(thrown, not a 502/503/504 response), the wrapper issues exactly one
direct request to the original target, with the caller's original headers,
and returns that request's outcome whatever it is. -/
theorem claim_C1_failover_after_transient_errors (o : TapesOptions) (u : Url)
    (ihdrs : HeaderList) (oracle : Nat → FetchOutcome) (d : FetchOutcome)
    (hf : resolveFailover o = true)
    (hAll : ∀ j : Nat, (j : Int) < (resolveRetry o).maxAttempts →
      ∃ e, oracle j = FetchOutcome.err e ∧ isRetryable (some e) none = true) :
    (tapesFetch o u ihdrs oracle d).directRequests
        = [{ url := u, headers := mkHeaders ihdrs }] ∧
      (tapesFetch o u ihdrs oracle d).outcome = directOutcomeAs d := by
  have hAllE : ∀ j, j < 0 + (resolveRetry o).maxAttempts.toNat →
      ∃ e, oracle j = FetchOutcome.err e := by
    intro j hj
    obtain ⟨e, he, _⟩ := hAll j (by omega)
    exact ⟨e, he⟩
  obtain ⟨le2, hExit⟩ := retryLoop_all_err (resolveRetry o) oracle
    (proxiedRequest o u ihdrs) (resolveDebug o)
    (resolveRetry o).maxAttempts.toNat 0 none none hAllE
  exact tapesFetch_of_exhausted_failover o u ihdrs oracle d le2 none hf
    (by unfold loopRun; exact hExit)

/-- Witness for the amended C1: three refused connections, failover
enabled, direct target succeeding. -/
theorem claim_C1_witness :
    (tapesFetch (sampleOptions true) sampleOrigin [("Authorization", "k")]
          (fun _ => FetchOutcome.err connRefused)
          (FetchOutcome.ok ⟨201⟩)).directRequests
        = [{ url := sampleOrigin, headers := mkHeaders [("Authorization", "k")] }] ∧
      (tapesFetch (sampleOptions true) sampleOrigin [("Authorization", "k")]
          (fun _ => FetchOutcome.err connRefused)
          (FetchOutcome.ok ⟨201⟩)).outcome
        = directOutcomeAs (FetchOutcome.ok ⟨201⟩) :=
  claim_C1_failover_after_transient_errors (sampleOptions true) sampleOrigin
    [("Authorization", "k")] (fun _ => FetchOutcome.err connRefused)
    (FetchOutcome.ok ⟨201⟩) rfl
    (fun j hj => ⟨connRefused, rfl, by decide⟩)

/-- Counterexample to claim C2 as stated: a NON-retryable error ("boom",
matching no transient signature) on attempt 0 does not end the loop — a
second proxied request is issued (the `catch` block has no `break`). -/
theorem claim_C2_counterexample :
    isRetryable (some boomError) none = false ∧
      (tapesFetch (sampleOptions false) sampleOrigin []
          (fun i => if i = 0 then FetchOutcome.err boomError
                    else FetchOutcome.ok ⟨200⟩)
          (FetchOutcome.ok ⟨200⟩)).proxiedCount = 2 ∧
      ¬ (tapesFetch (sampleOptions false) sampleOrigin []
          (fun i => if i = 0 then FetchOutcome.err boomError
                    else FetchOutcome.ok ⟨200⟩)
          (FetchOutcome.ok ⟨200⟩)).proxiedCount = 1 :=
  ⟨by decide, rfl, by decide⟩

/-- Claim C2 as amended: a non-retryable RESPONSE at attempt `i` ends the
loop — attempt `i` is the last proxied request and the response is
returned; a non-retryable ERROR, however, does not end the loop: when
every attempt throws a non-retryable error, all `maxAttempts` proxied
requests are issued, with no backoff delay between them. -/
theorem claim_C2_stop_conditions (o : TapesOptions) (u : Url)
    (ihdrs : HeaderList) (oracle : Nat → FetchOutcome) (d : FetchOutcome) :
    (∀ (i : Nat) (r : Response),
        (i : Int) < (resolveRetry o).maxAttempts →
        (∀ j, j < i → nonReturning oracle j) →
        oracle i = FetchOutcome.ok r →
        isRetryable none (some r) = false →
        (tapesFetch o u ihdrs oracle d).proxiedCount = i + 1 ∧
          (tapesFetch o u ihdrs oracle d).outcome = .returnedResponse r ∧
          (tapesFetch o u ihdrs oracle d).directRequests = []) ∧
      ((∀ j : Nat, (j : Int) < (resolveRetry o).maxAttempts →
          ∃ e, oracle j = FetchOutcome.err e ∧
            isRetryable (some e) none = false) →
        (tapesFetch o u ihdrs oracle d).proxiedCount
            = (resolveRetry o).maxAttempts.toNat ∧
          (tapesFetch o u ihdrs oracle d).sleeps = []) := by
  constructor
  · intro i r hi hPrev hOr hNR
    have hik : i < (resolveRetry o).maxAttempts.toNat := by omega
    have hstop := retryLoop_stop_on_nonretry_ok (resolveRetry o) oracle
      (proxiedRequest o u ihdrs) (resolveDebug o) i
      (resolveRetry o).maxAttempts.toNat 0 none none r hik
      (by push_cast; omega) (fun j _ hj2 => hPrev j (by omega))
      (by rw [Nat.zero_add]; exact hOr) hNR
    have hret := tapesFetch_of_returned o u ihdrs oracle d r
      (by unfold loopRun; exact hstop.1)
    refine ⟨?_, hret.1, hret.2⟩
    rw [RunResult.proxiedCount, tapesFetch_events]
    unfold loopRun
    exact hstop.2
  · intro hAll
    have hchar := retryLoop_all_nonretry_err (resolveRetry o) oracle
      (proxiedRequest o u ihdrs) (resolveDebug o)
      (resolveRetry o).maxAttempts.toNat 0 none none
      (fun j _ hj2 => hAll j (by omega))
    constructor
    · rw [RunResult.proxiedCount, tapesFetch_events]
      unfold loopRun
      exact hchar.1
    · rw [RunResult.sleeps, tapesFetch_events]
      unfold loopRun
      exact hchar.2.1

/-- Witness for the amended C2: a 404 on the first attempt ends the loop
after one request; an always-"boom" oracle yields all three requests and
no sleeps. -/
theorem claim_C2_witness :
    ((tapesFetch (sampleOptions false) sampleOrigin []
          (fun _ => FetchOutcome.ok ⟨404⟩)
          (FetchOutcome.ok ⟨200⟩)).proxiedCount = 0 + 1 ∧
        (tapesFetch (sampleOptions false) sampleOrigin []
            (fun _ => FetchOutcome.ok ⟨404⟩)
            (FetchOutcome.ok ⟨200⟩)).outcome = .returnedResponse ⟨404⟩ ∧
        (tapesFetch (sampleOptions false) sampleOrigin []
            (fun _ => FetchOutcome.ok ⟨404⟩)
            (FetchOutcome.ok ⟨200⟩)).directRequests = []) ∧
      ((tapesFetch (sampleOptions false) sampleOrigin []
            (fun _ => FetchOutcome.err boomError)
            (FetchOutcome.ok ⟨200⟩)).proxiedCount
          = (resolveRetry (sampleOptions false)).maxAttempts.toNat ∧
        (tapesFetch (sampleOptions false) sampleOrigin []
            (fun _ => FetchOutcome.err boomError)
            (FetchOutcome.ok ⟨200⟩)).sleeps = []) := by
  constructor
  · exact (claim_C2_stop_conditions (sampleOptions false) sampleOrigin []
      (fun _ => FetchOutcome.ok ⟨404⟩) (FetchOutcome.ok ⟨200⟩)).1 0 ⟨404⟩
      (by decide) (fun j hj => absurd hj (Nat.not_lt_zero j)) rfl (by decide)
  · exact (claim_C2_stop_conditions (sampleOptions false) sampleOrigin []
      (fun _ => FetchOutcome.err boomError) (FetchOutcome.ok ⟨200⟩)).2
      (fun j hj => ⟨boomError, rfl, by decide⟩)

end Tapes
